import Mathlib

/-
Shallow embedding of the RAG document question-answering pipeline:
`config.py` (Config), `src/ingestion.py` (DocumentIngestion),
`src/indexer.py` (RAGIndexer) and `qa.py` (rebuild_index).

External collaborators (llama_index: SentenceSplitter, VectorStoreIndex,
load_index_from_storage, StorageContext; the file system; embedding and LLM
services) are modelled: the file-system / persisted-storage state is a
`StorageState`, `load_index_from_storage` succeeds exactly when the
persisted storage is valid, and `VectorStoreIndex(nodes)` constructs an
index holding exactly the given nodes and is assumed not to fail (the spec
treats embedding failures as external-service errors that simply propagate;
no claim depends on them).  Python exceptions are modelled with `Except`.
-/

namespace RagQA

/-- Python error values that the modelled code can raise. -/
inductive PyError where
  | valueError (msg : String)
  | zeroDivisionError
  deriving Repr, DecidableEq

/-- Central configuration, from `config.py` (class Config). -/
def Config.DOCS_DIR : String := "./docs"

/-- Storage directory constant from `config.py`. -/
def Config.STORAGE_DIR : String := "./storage"

/-- Default chunk size from `config.py` (CHUNK_SIZE = 512). -/
def Config.CHUNK_SIZE : Int := 512

/-- Default chunk overlap from `config.py` (CHUNK_OVERLAP = 50). -/
def Config.CHUNK_OVERLAP : Int := 50

/-- Default retrieval top-k from `config.py` (TOP_K = 3). -/
def Config.TOP_K : Int := 3

/-- Default response mode from `config.py` (RESPONSE_MODE = "compact"). -/
def Config.RESPONSE_MODE : String := "compact"

/-- Python `x or d` for an optional integer argument: `None` and `0` are
falsy, so both fall through to the default `d`. -/
def pyOrInt (x : Option Int) (d : Int) : Int :=
  match x with
  | none => d
  | some v => if v = 0 then d else v

/-- Python `x or d` for an optional string argument: `None` and `""` are
falsy, so both fall through to the default `d`. -/
def pyOrStr (x : Option String) (d : String) : String :=
  match x with
  | none => d
  | some s => if s = "" then d else s

/-- A loaded document: raw text plus string metadata (llama_index Document). -/
structure Document where
  text : String
  metadata : List (String × String)
  deriving Repr, DecidableEq

/-- A chunk (llama_index Node): a span of text with metadata inherited from
its parent document. -/
structure Chunk where
  text : String
  metadata : List (String × String)
  deriving Repr, DecidableEq

/-- Modelled from the spec: the external llama_index `SentenceSplitter`
(section 4.1 Chunker), abstracting boundary snapping to a character-level
greedy split.  One document's character list becomes pieces of at most
`size` characters; successive pieces start `size - overlap` characters
apart, so each piece after the first overlaps the previous one's tail.
`fuel` (instantiated to the text length) makes the recursion structural;
it never runs out for a valid configuration (`step ≥ 1`). -/
def splitChars (size step : Nat) : Nat → List Char → List (List Char)
  | _, [] => []
  | 0, s => [s]
  | fuel + 1, s =>
      if s.length ≤ size then [s]
      else s.take size :: splitChars size step fuel (s.drop step)

/-- Modelled from the spec: split one document into chunks, copying the
parent document's metadata verbatim onto every chunk (section 4.1). -/
def splitDocument (size overlap : Nat) (d : Document) : List Chunk :=
  (splitChars size (size - overlap) d.text.length d.text.data).map
    (fun cs => { text := String.mk cs, metadata := d.metadata })

/-- Modelled from the spec: `SentenceSplitter.get_nodes_from_documents`,
each document split independently, results concatenated in order. -/
def getNodesFromDocuments (size overlap : Nat) (docs : List Document) :
    List Chunk :=
  (docs.map (splitDocument size overlap)).flatten

/-- State of `DocumentIngestion` (src/ingestion.py) after `__init__`:
chunk size, chunk overlap, documents directory. -/
structure DocumentIngestion where
  chunk_size : Int
  chunk_overlap : Int
  docs_dir : String
  deriving Repr, DecidableEq

/-- `DocumentIngestion.__init__(chunk_size=None, chunk_overlap=None)`:
applies the `or`-defaulting to both arguments and stores
`Config.DOCS_DIR`.  The constructor body contains no validation and no
raise path, so it is total; `init` wraps it in `Except` to record that it
never raises. -/
def DocumentIngestion.mkPy (chunk_size chunk_overlap : Option Int) :
    DocumentIngestion :=
  { chunk_size := pyOrInt chunk_size Config.CHUNK_SIZE
    chunk_overlap := pyOrInt chunk_overlap Config.CHUNK_OVERLAP
    docs_dir := Config.DOCS_DIR }

/-- `DocumentIngestion.__init__` viewed as a fallible call: the body is
only attribute assignments (plus logging), so every call returns `ok`. -/
def DocumentIngestion.init (chunk_size chunk_overlap : Option Int) :
    Except PyError DocumentIngestion :=
  Except.ok (DocumentIngestion.mkPy chunk_size chunk_overlap)

/-- `DocumentIngestion.chunk_documents(documents)` (src/ingestion.py
lines 63-97): builds a SentenceSplitter from the stored configuration,
converts the documents to nodes, then computes the logging statistic
`avg_chunk_size = sum(len(node.text) for node in nodes) / len(nodes)`.
When `nodes` is empty that division raises `ZeroDivisionError`, which the
`except` clause logs and re-raises; otherwise the nodes are returned. -/
def DocumentIngestion.chunk_documents (ing : DocumentIngestion)
    (documents : List Document) : Except PyError (List Chunk) :=
  let nodes := getNodesFromDocuments ing.chunk_size.toNat
      ing.chunk_overlap.toNat documents
  if nodes.length = 0 then
    Except.error PyError.zeroDivisionError
  else
    Except.ok nodes

/-- An in-memory vector index handle: the set of chunks it holds (the
embedding vectors are external-collaborator state that no claim observes). -/
structure IndexHandle where
  nodes : List Chunk
  deriving Repr, DecidableEq

/-- State of the persisted storage location (`Config.STORAGE_DIR`):
`absent` — `os.path.exists` is false; `corrupt` — the directory exists but
`load_index_from_storage` raises; `valid idx` — deserialization succeeds
and yields `idx`. -/
inductive StorageState where
  | absent
  | corrupt
  | valid (idx : IndexHandle)
  deriving Repr, DecidableEq

/-- State of a `RAGIndexer` (src/indexer.py): the `self.index` attribute,
`None` until an index is created or loaded. -/
structure RAGIndexer where
  index : Option IndexHandle
  deriving Repr, DecidableEq

/-- `RAGIndexer.__init__`: configures the external embedding and LLM
services (collaborator state, not modelled) and sets `self.index = None`. -/
def RAGIndexer.init : RAGIndexer := { index := none }

/-- The `ValueError` message raised by `create_or_load_index` when no
existing index is found and no nodes are provided (src/indexer.py
lines 65-68). -/
def noNodesMsg : String :=
  "No existing index found and no nodes provided. Please provide nodes to create a new index."

deriving instance DecidableEq for Except

/-- Everything observable about one `create_or_load_index` call: the
returned value or raised error, the updated `self`, the updated storage
state, whether (and from how many nodes) `VectorStoreIndex` was
constructed, and whether `persist` ran. -/
structure CreateOrLoadResult where
  ret : Except PyError IndexHandle
  self : RAGIndexer
  storage : StorageState
  builtCount : Option Nat
  persisted : Bool
  deriving Repr, DecidableEq

/-- `RAGIndexer.create_or_load_index(nodes=None)` (src/indexer.py
lines 41-85).  If the storage directory exists, it tries to load; on
success it stores and returns the loaded index (the `nodes` argument is
never read on this path).  On a load exception it logs a warning and falls
through; if the directory does not exist it falls through directly.  The
fallback raises `ValueError` when `nodes is None`, otherwise constructs
`VectorStoreIndex(nodes)`, persists it to the storage directory, stores it
on `self` and returns it. -/
def RAGIndexer.create_or_load_index (self : RAGIndexer)
    (storage : StorageState) (nodes : Option (List Chunk)) :
    CreateOrLoadResult :=
  match storage with
  | StorageState.valid idx =>
      { ret := Except.ok idx
        self := { index := some idx }
        storage := StorageState.valid idx
        builtCount := none
        persisted := false }
  | _ =>
      match nodes with
      | none =>
          { ret := Except.error (PyError.valueError noNodesMsg)
            self := self
            storage := storage
            builtCount := none
            persisted := false }
      | some ns =>
          { ret := Except.ok { nodes := ns }
            self := { index := some { nodes := ns } }
            storage := StorageState.valid { nodes := ns }
            builtCount := some ns.length
            persisted := true }

/-- A query engine as configured by `get_query_engine`
(`index.as_query_engine(similarity_top_k=top_k, response_mode=mode,
streaming=False)`). -/
structure QueryEngine where
  index : IndexHandle
  similarity_top_k : Int
  response_mode : String
  streaming : Bool
  deriving Repr, DecidableEq

/-- `RAGIndexer.get_query_engine(similarity_top_k=None, response_mode=None)`
(src/indexer.py lines 87-112): raises `ValueError` when `self.index` is
`None`; otherwise applies `or`-defaulting to both arguments and builds the
query engine. -/
def RAGIndexer.get_query_engine (self : RAGIndexer)
    (similarity_top_k : Option Int) (response_mode : Option String) :
    Except PyError QueryEngine :=
  match self.index with
  | none =>
      Except.error (PyError.valueError
        "Index not initialized. Call create_or_load_index() first.")
  | some idx =>
      Except.ok
        { index := idx
          similarity_top_k := pyOrInt similarity_top_k Config.TOP_K
          response_mode := pyOrStr response_mode Config.RESPONSE_MODE
          streaming := false }

/-- A retriever as configured by `get_retriever`
(`index.as_retriever(similarity_top_k=top_k)`). -/
structure Retriever where
  index : IndexHandle
  similarity_top_k : Int
  deriving Repr, DecidableEq

/-- `RAGIndexer.get_retriever(similarity_top_k=None)` (src/indexer.py
lines 114-129): raises `ValueError` when `self.index` is `None`; otherwise
applies `or`-defaulting and builds the retriever. -/
def RAGIndexer.get_retriever (self : RAGIndexer)
    (similarity_top_k : Option Int) : Except PyError Retriever :=
  match self.index with
  | none =>
      Except.error (PyError.valueError
        "Index not initialized. Call create_or_load_index() first.")
  | some idx =>
      Except.ok
        { index := idx
          similarity_top_k := pyOrInt similarity_top_k Config.TOP_K }

/-- `rebuild_index()` (qa.py lines 110-126): if the storage directory
exists it is removed with `shutil.rmtree`, otherwise nothing is on disk
already; either way the function only deletes — it builds no index and
touches no `RAGIndexer` — and the resulting storage state is absent. -/
def rebuild_index (storage : StorageState) : StorageState :=
  match storage with
  | _ => StorageState.absent

/-- A concrete chunk used to instantiate hypotheses of proved theorems. -/
def sampleChunk : Chunk :=
  { text := "OAuth is an authentication protocol"
    metadata := [("file_name", "auth.md")] }

/-- C1: when the storage location holds a loadable index, every
`create_or_load_index` call returns that loaded handle, stores it on
`self`, leaves storage untouched, performs no `VectorStoreIndex` build (so
no embedding) and no persist — regardless of the `nodes` argument, which
does not appear on the right-hand side at all. -/
theorem create_or_load_loads_and_ignores_nodes (self : RAGIndexer)
    (idx : IndexHandle) (nodes : Option (List Chunk)) :
    self.create_or_load_index (StorageState.valid idx) nodes =
      { ret := Except.ok idx
        self := { index := some idx }
        storage := StorageState.valid idx
        builtCount := none
        persisted := false } := rfl

/-- C2: the code contradicts the claim (and the repository's own test
`test_empty_document_list`): on the empty document list,
`chunk_documents` produces zero nodes and then the logging statistic
`sum(len(node.text) for node in nodes) / len(nodes)` divides by zero, so
the call raises `ZeroDivisionError` instead of returning the empty list. -/
theorem chunk_documents_empty_raises :
    (DocumentIngestion.mkPy none none).chunk_documents [] =
      Except.error PyError.zeroDivisionError := rfl

/-- C3 counterexample: with no persisted storage and the empty (non-None)
chunk list, `create_or_load_index` does not fail with a `ValueError`
before building: it reaches the build step (`VectorStoreIndex` is
constructed from 0 nodes), persists the empty index, and returns it. -/
theorem create_or_load_empty_nodes_not_rejected :
    (RAGIndexer.init.create_or_load_index StorageState.absent (some [])).ret
        = Except.ok { nodes := [] } ∧
    (RAGIndexer.init.create_or_load_index StorageState.absent
        (some [])).builtCount = some 0 ∧
    (RAGIndexer.init.create_or_load_index StorageState.absent
        (some [])).persisted = true :=
  ⟨rfl, rfl, rfl⟩

/-- C3 amended: with no existing persisted storage, `create_or_load_index`
raises `ValueError` exactly when the chunk argument is `None`; an empty
non-None chunk sequence is not rejected — the code proceeds to build (and
persist) an index from it. -/
theorem create_or_load_rejects_only_none (self : RAGIndexer)
    (nodes : Option (List Chunk)) :
    match nodes with
    | none =>
        (self.create_or_load_index StorageState.absent none).ret =
          Except.error (PyError.valueError noNodesMsg)
    | some ns =>
        (self.create_or_load_index StorageState.absent (some ns)).ret =
            Except.ok { nodes := ns } ∧
        (self.create_or_load_index StorageState.absent
            (some ns)).builtCount = some ns.length := by
  cases nodes with
  | none => rfl
  | some ns => exact ⟨rfl, rfl⟩

/-- C4: `create_or_load_index(nodes=None)` with no persisted storage
raises `ValueError` carrying exactly the message that no existing index
was found and no nodes were provided; `self` is unchanged (so `self.index`
stays `None` for a fresh indexer), nothing is built or persisted. -/
theorem create_or_load_none_raises (self : RAGIndexer) :
    (self.create_or_load_index StorageState.absent none =
      { ret := Except.error (PyError.valueError noNodesMsg)
        self := self
        storage := StorageState.absent
        builtCount := none
        persisted := false }) ∧
    noNodesMsg =
      "No existing index found and no nodes provided. Please provide nodes to create a new index." ∧
    (RAGIndexer.init.create_or_load_index StorageState.absent
        none).self.index = none :=
  ⟨rfl, rfl, rfl⟩

/-- C5: when the storage location exists but deserialization raises
(corrupt storage), the load failure is not propagated: with any non-None
`nodes`, the call falls through to the build path, builds an index from
the supplied nodes, persists it, and returns it successfully. -/
theorem create_or_load_corrupt_falls_back (self : RAGIndexer)
    (ns : List Chunk) :
    self.create_or_load_index StorageState.corrupt (some ns) =
      { ret := Except.ok { nodes := ns }
        self := { index := some { nodes := ns } }
        storage := StorageState.valid { nodes := ns }
        builtCount := some ns.length
        persisted := true } := rfl

/-- C6: `rebuild_index` only deletes the persisted storage (the resulting
storage state is always absent and no index value is produced), so a
following `create_or_load_index(nodes=None)` with no intervening build
raises the `ValueError`, leaving `self` unchanged and building nothing:
the rebuild is destructive-then-deferred. -/
theorem rebuild_is_deferred (storage : StorageState) (self : RAGIndexer) :
    rebuild_index storage = StorageState.absent ∧
    (self.create_or_load_index (rebuild_index storage) none).ret =
      Except.error (PyError.valueError noNodesMsg) ∧
    (self.create_or_load_index (rebuild_index storage) none).builtCount
      = none ∧
    (self.create_or_load_index (rebuild_index storage) none).self = self := by
  cases storage <;> exact ⟨rfl, rfl, rfl, rfl⟩

/-- C7: for a non-empty chunk list X and no prior persisted storage,
`create_or_load_index(X)` builds an index holding exactly `X.length`
chunks and persists it (storage becomes valid) before returning it; a
subsequent `create_or_load_index(nodes=None)` call then succeeds by
loading that persisted index, building nothing. -/
theorem create_or_load_builds_then_reloads (self : RAGIndexer)
    (X : List Chunk) (_h : X ≠ []) :
    (self.create_or_load_index StorageState.absent (some X)).ret =
        Except.ok { nodes := X } ∧
    ({ nodes := X } : IndexHandle).nodes.length = X.length ∧
    (self.create_or_load_index StorageState.absent (some X)).persisted
        = true ∧
    (self.create_or_load_index StorageState.absent (some X)).storage =
        StorageState.valid { nodes := X } ∧
    (((self.create_or_load_index StorageState.absent (some X)).self).create_or_load_index
        (self.create_or_load_index StorageState.absent (some X)).storage
        none).ret = Except.ok { nodes := X } ∧
    (((self.create_or_load_index StorageState.absent (some X)).self).create_or_load_index
        (self.create_or_load_index StorageState.absent (some X)).storage
        none).builtCount = none :=
  ⟨rfl, rfl, rfl, rfl, rfl, rfl⟩

/-- C7 witness: the theorem applied to a fresh indexer and the concrete
one-element chunk list `[sampleChunk]`. -/
theorem create_or_load_builds_then_reloads_witness :
    (RAGIndexer.init.create_or_load_index StorageState.absent
        (some [sampleChunk])).ret = Except.ok { nodes := [sampleChunk] } ∧
    ({ nodes := [sampleChunk] } : IndexHandle).nodes.length =
        ([sampleChunk] : List Chunk).length ∧
    (RAGIndexer.init.create_or_load_index StorageState.absent
        (some [sampleChunk])).persisted = true ∧
    (RAGIndexer.init.create_or_load_index StorageState.absent
        (some [sampleChunk])).storage =
        StorageState.valid { nodes := [sampleChunk] } ∧
    (((RAGIndexer.init.create_or_load_index StorageState.absent
        (some [sampleChunk])).self).create_or_load_index
        (RAGIndexer.init.create_or_load_index StorageState.absent
          (some [sampleChunk])).storage
        none).ret = Except.ok { nodes := [sampleChunk] } ∧
    (((RAGIndexer.init.create_or_load_index StorageState.absent
        (some [sampleChunk])).self).create_or_load_index
        (RAGIndexer.init.create_or_load_index StorageState.absent
          (some [sampleChunk])).storage
        none).builtCount = none :=
  create_or_load_builds_then_reloads RAGIndexer.init [sampleChunk]
    (List.cons_ne_nil _ _)

/-- C8: chunking is deterministic and depends only on the chunking
configuration: two `DocumentIngestion` states agreeing on `chunk_size` and
`chunk_overlap` produce identical `chunk_documents` results (same chunks,
same text, same order) on every document list. -/
theorem chunk_documents_deterministic (a b : DocumentIngestion)
    (docs : List Document) (h1 : a.chunk_size = b.chunk_size)
    (h2 : a.chunk_overlap = b.chunk_overlap) :
    a.chunk_documents docs = b.chunk_documents docs := by
  cases a
  cases b
  cases h1
  cases h2
  rfl

/-- C8 witness: the theorem applied to two concretely different ingestion
states sharing the chunking configuration, on a one-document list. -/
theorem chunk_documents_deterministic_witness :
    DocumentIngestion.chunk_documents
        { chunk_size := 512, chunk_overlap := 50, docs_dir := "./docs" }
        [{ text := "hello world", metadata := [("file_name", "a.md")] }] =
      DocumentIngestion.chunk_documents
        { chunk_size := 512, chunk_overlap := 50, docs_dir := "/tmp/docs" }
        [{ text := "hello world", metadata := [("file_name", "a.md")] }] :=
  chunk_documents_deterministic
    { chunk_size := 512, chunk_overlap := 50, docs_dir := "./docs" }
    { chunk_size := 512, chunk_overlap := 50, docs_dir := "/tmp/docs" }
    [{ text := "hello world", metadata := [("file_name", "a.md")] }]
    rfl rfl

/-- C9 counterexample: constructing `DocumentIngestion` with
`chunk_size=10` and `chunk_overlap=100` — violating both stated
preconditions (`chunk_overlap < chunk_size`) — succeeds and stores the
invalid values verbatim; no configuration error is raised at construction
time. -/
theorem ingestion_invalid_config_accepted :
    DocumentIngestion.init (some 10) (some 100) =
      Except.ok
        { chunk_size := 10, chunk_overlap := 100
          docs_dir := Config.DOCS_DIR } := rfl

/-- C9 amended: `DocumentIngestion.__init__` performs no validation at
all: every construction, whatever the `chunk_size` and `chunk_overlap`
arguments, returns successfully; precondition violations are not detected
at construction time (they can only surface later, at chunking time,
inside the external splitter). -/
theorem ingestion_init_never_fails (chunk_size chunk_overlap : Option Int) :
    (DocumentIngestion.init chunk_size chunk_overlap).isOk = true := rfl

/-- C10: a zero-valued argument is treated as absent by the
`or`-defaulting: `DocumentIngestion` with `chunk_size=0` or
`chunk_overlap=0` equals the construction with the argument omitted (the
configured defaults 512 and 50 are used), and `get_query_engine` /
`get_retriever` with `similarity_top_k=0` equal the calls with the
argument omitted (the configured `TOP_K = 3` is used); none of these calls
raises. -/
theorem zero_arguments_fall_back_to_defaults (idx : IndexHandle) :
    DocumentIngestion.init (some 0) none = DocumentIngestion.init none none ∧
    DocumentIngestion.init none (some 0) = DocumentIngestion.init none none ∧
    (DocumentIngestion.mkPy (some 0) (some 0)).chunk_size =
        Config.CHUNK_SIZE ∧
    (DocumentIngestion.mkPy (some 0) (some 0)).chunk_overlap =
        Config.CHUNK_OVERLAP ∧
    (DocumentIngestion.init (some 0) (some 0)).isOk = true ∧
    ({ index := some idx } : RAGIndexer).get_query_engine (some 0) none =
        ({ index := some idx } : RAGIndexer).get_query_engine none none ∧
    ({ index := some idx } : RAGIndexer).get_query_engine (some 0) none =
        Except.ok
          { index := idx, similarity_top_k := Config.TOP_K
            response_mode := Config.RESPONSE_MODE, streaming := false } ∧
    ({ index := some idx } : RAGIndexer).get_retriever (some 0) =
        ({ index := some idx } : RAGIndexer).get_retriever none ∧
    ({ index := some idx } : RAGIndexer).get_retriever (some 0) =
        Except.ok { index := idx, similarity_top_k := Config.TOP_K } :=
  ⟨rfl, rfl, rfl, rfl, rfl, rfl, rfl, rfl, rfl⟩

end RagQA
